import Mathlib

/-!
Shallow embedding of the dokrunner query dispatch and aggregation engine
(src/krunner.rs, with the data model of src/provider.rs as used by
src/krunner.rs and src/dash.rs).

Modelling conventions:
* Rust `async` calls are modelled as pure functions; a backend
  (`DocProvider` trait object) is a record of functions.
* `anyhow::Error` and `tokio::task::JoinError` are modelled as `String`
  (only construction and propagation matter to the engine).
* `f64` relevance arithmetic is modelled as exact rational arithmetic;
  the only operation performed is division by 100.
* `tokio::task::JoinSet` spawning plus `join_next` collection is modelled
  as a list of task results traversed in spawn order; the tasks spawned by
  the engine are pure, so every join is modelled as succeeding
  (`Except.ok`).
* `serde_json::to_string` on `EntryData` is modelled character by
  character after serde's compact externally-tagged encoding;
  `serde_json::from_str::<EntryData>` is modelled by a recursive-descent
  reader of that same externally-tagged shape (tag string first, then the
  named fields in declaration order, full JSON string unescaping).
-/

namespace Dokrunner

/-- Entry kinds, from `src/provider.rs` (`enum EntryType`). -/
inductive EntryType where
  | Class
  | Function
  | Method
  | Enum
  | Constant
  | Option
  | Guide
  | Module
  | Other (label : String)
deriving DecidableEq

/-- One matched item inside a docset, from `src/provider.rs`
(`struct SearchEntry`). `relevance` is a Rust `usize`, hence `Nat`.
The locator field is called `url` as in `src/provider.rs` and
`src/dash.rs` (`src/krunner.rs` binds it under the name `url` as well). -/
structure SearchEntry where
  entry_type : EntryType
  title : String
  desc : String
  url : String
  relevance : Nat
deriving DecidableEq

/-- A backend-local searchable collection, from `src/provider.rs` as
constructed by `src/dash.rs` and consumed by `src/krunner.rs`
(fields `id`, `keywords`, `name`, `description`, `icon`). -/
structure DocSet where
  id : String
  keywords : List String
  name : String
  description : String
  icon : String
deriving DecidableEq

/-- Property keys of a displayable result, from `src/krunner.rs`
(`enum QueryPropertyField`). -/
inductive QueryPropertyField where
  | Category
  | Subtext
deriving DecidableEq

/-- Match-type tier, from `src/krunner.rs` (`type MatchType = i32`). -/
abbrev MatchType := Int

/-- Completion tier constant, from `src/krunner.rs`. -/
def MATCH_TYPE_COMPLETION : MatchType := 10

/-- Exact tier constant, from `src/krunner.rs`. -/
def MATCH_TYPE_EXACT : MatchType := 100

/-- The engine's displayable output unit, from `src/krunner.rs`
(`struct QueryEntry`). The `HashMap` of properties is modelled as an
association list in insertion order; the `f64` relevance as a rational. -/
structure QueryEntry where
  data : String
  display_text : String
  icon_name : String
  match_type : MatchType
  relevance : ℚ
  properties : List (QueryPropertyField × String)
deriving DecidableEq

/-- The opaque action reference, from `src/krunner.rs` (`enum EntryData`). -/
inductive EntryData where
  | DocSet (provider : String) (id : String)
  | Entry (provider : String) (doc_set_id : String) (url : String)
deriving DecidableEq

/-- Lowercase hexadecimal digit character, as used by serde_json's
escape table. Defined for `n < 16`. -/
def hexDigitChar (n : Nat) : Char :=
  if n < 10 then Char.ofNat (48 + n) else Char.ofNat (87 + n)

/-- JSON escaping of one character, after serde_json's string serializer:
quote and backslash get two-character escapes, the control characters
backspace, tab, newline, form feed and carriage return get their short
escapes, every other control character below 0x20 gets a
backslash-u-0-0-hex-hex escape, and everything else is emitted verbatim. -/
def escapeChar (c : Char) : List Char :=
  if c = '"' then ['\\', '"']
  else if c = '\\' then ['\\', '\\']
  else if c.toNat = 8 then ['\\', 'b']
  else if c.toNat = 9 then ['\\', 't']
  else if c.toNat = 10 then ['\\', 'n']
  else if c.toNat = 12 then ['\\', 'f']
  else if c.toNat = 13 then ['\\', 'r']
  else if c.toNat < 32 then
    ['\\', 'u', '0', '0', hexDigitChar (c.toNat / 16), hexDigitChar (c.toNat % 16)]
  else [c]

/-- JSON escaping of a whole string body (no surrounding quotes). -/
def jsonEscape (s : List Char) : List Char :=
  (s.map escapeChar).flatten

/-- Model of `serde_json::to_string` on `EntryData`, from its use in
`src/krunner.rs`: serde's compact externally-tagged encoding of the enum,
with the fields in declaration order. The variant and field names contain
no character that needs escaping, so they are written literally. -/
def encodeEntryData : EntryData → String
  | EntryData.DocSet provider id =>
      String.mk ("\x7b\"".toList ++ "DocSet".toList ++ "\":\x7b\"provider\":\"".toList
        ++ jsonEscape provider.toList ++ "\",\"id\":\"".toList
        ++ jsonEscape id.toList ++ "\"\x7d\x7d".toList)
  | EntryData.Entry provider doc_set_id url =>
      String.mk ("\x7b\"".toList ++ "Entry".toList ++ "\":\x7b\"provider\":\"".toList
        ++ jsonEscape provider.toList ++ "\",\"doc_set_id\":\"".toList
        ++ jsonEscape doc_set_id.toList ++ "\",\"url\":\"".toList
        ++ jsonEscape url.toList ++ "\"\x7d\x7d".toList)

/-- Value of one hexadecimal digit character, or `none`. -/
def parseHexDigit (c : Char) : Option Nat :=
  if 48 ≤ c.toNat ∧ c.toNat ≤ 57 then some (c.toNat - 48)
  else if 97 ≤ c.toNat ∧ c.toNat ≤ 102 then some (c.toNat - 87)
  else if 65 ≤ c.toNat ∧ c.toNat ≤ 70 then some (c.toNat - 55)
  else none

/-- Inverse of one short escape character, as in JSON string syntax. -/
def unescapeChar (e : Char) : Option Char :=
  if e = '"' then some '"'
  else if e = '\\' then some '\\'
  else if e = '/' then some '/'
  else if e = 'b' then some (Char.ofNat 8)
  else if e = 'f' then some (Char.ofNat 12)
  else if e = 'n' then some '\n'
  else if e = 'r' then some '\r'
  else if e = 't' then some '\t'
  else none

/-- Reader for a JSON string body after the opening quote: consumes up to
and including the closing quote, resolving every escape, and returns the
decoded characters together with the unread remainder. Raw control
characters are rejected, as serde_json rejects them; a lone surrogate
escape is rejected (the engine's encoder never emits surrogates). -/
def parseStringBody : List Char → Option (List Char × List Char)
  | [] => none
  | c :: l =>
    if c = '"' then some ([], l)
    else if c = '\\' then
      match l with
      | [] => none
      | e :: l2 =>
        if e = 'u' then
          match l2 with
          | h1 :: h2 :: h3 :: h4 :: l3 =>
            match parseHexDigit h1, parseHexDigit h2, parseHexDigit h3, parseHexDigit h4 with
            | some a, some b, some c2, some d =>
              let n := ((a * 16 + b) * 16 + c2) * 16 + d
              if n < 0xd800 ∨ 0xe000 ≤ n then
                (parseStringBody l3).map (fun pr => (Char.ofNat n :: pr.1, pr.2))
              else none
            | _, _, _, _ => none
          | _ => none
        else
          match unescapeChar e with
          | some u => (parseStringBody l2).map (fun pr => (u :: pr.1, pr.2))
          | none => none
    else if c.toNat < 32 then none
    else (parseStringBody l).map (fun pr => (c :: pr.1, pr.2))

/-- Consume an expected literal character sequence, or fail. -/
def expectChars : List Char → List Char → Option (List Char)
  | [], l => some l
  | t :: ts, c :: cs => if c = t then expectChars ts cs else none
  | _ :: _, [] => none

/-- Model of `serde_json::from_str::<EntryData>`, from its use in
`src/krunner.rs`: reads the externally-tagged encoding (the tag string
first, then the variant's named fields in declaration order), resolving
all JSON string escapes, and requires the input to be consumed exactly.
Inputs of any other shape are rejected as malformed. -/
def decodeEntryData (s : String) : Option EntryData := do
  let l ← expectChars ("\x7b\"".toList) s.toList
  let (tag, l) ← parseStringBody l
  if String.mk tag = "DocSet" then
    let l ← expectChars (":\x7b\"provider\":\"".toList) l
    let (p, l) ← parseStringBody l
    let l ← expectChars (",\"id\":\"".toList) l
    let (i, l) ← parseStringBody l
    let l ← expectChars ("\x7d\x7d".toList) l
    match l with
    | [] => some (EntryData.DocSet (String.mk p) (String.mk i))
    | _ => none
  else if String.mk tag = "Entry" then
    let l ← expectChars (":\x7b\"provider\":\"".toList) l
    let (p, l) ← parseStringBody l
    let l ← expectChars (",\"doc_set_id\":\"".toList) l
    let (d, l) ← parseStringBody l
    let l ← expectChars (",\"url\":\"".toList) l
    let (u, l) ← parseStringBody l
    let l ← expectChars ("\x7d\x7d".toList) l
    match l with
    | [] => some (EntryData.Entry (String.mk p) (String.mk d) (String.mk u))
    | _ => none
  else none

/-- A registered backend, modelling a `dyn DocProvider` trait object from
`src/provider.rs` as used by `src/krunner.rs`: a record of its pure
observable operations. The `open` operation (called by `run` in
`src/krunner.rs` and required by the spec's backend contract) is named
`openItem` because `open` is a Lean keyword. -/
structure DocProvider where
  name : String
  search_doc_sets : String → Except String (List DocSet)
  search : String → String → Except String (List SearchEntry)
  openItem : String → String → Except String Unit

/-- Icon table, from `src/krunner.rs` (`EntryType::get_krunner_icon`). -/
def EntryType.get_krunner_icon : EntryType → String
  | EntryType.Class => "class-or-package"
  | EntryType.Method | EntryType.Function => "code-function"
  | EntryType.Enum => "enum"
  | EntryType.Constant => "code-variable"
  | _ => ""

/-- Conversion of one successful `SearchEntry` into a displayable
`QueryEntry`, from the closure inside `search_in_doc_sets` in
`src/krunner.rs`: item-selection data reference, exact tier, relevance
divided by 100, and category/subtext properties. -/
def mkQueryEntry (p : DocProvider) (ds : DocSet) (e : SearchEntry) : QueryEntry :=
  { data := encodeEntryData (EntryData.Entry p.name ds.id e.url)
    display_text := e.title
    icon_name := e.entry_type.get_krunner_icon
    match_type := MATCH_TYPE_EXACT
    relevance := (e.relevance : ℚ) / 100
    properties := [(QueryPropertyField.Category, ds.name),
                   (QueryPropertyField.Subtext, e.desc)] }

/-- Body of one per-docset task spawned by `search_in_doc_sets` in
`src/krunner.rs`: the backend's `search` result mapped entrywise to
`QueryEntry` values. -/
def doc_set_task (p : DocProvider) (ds : DocSet) (q : String) :
    Except String (List QueryEntry) :=
  (p.search ds.id q).map (fun entries => entries.map (mkQueryEntry p ds))

/-- Tail-recursive core of `collect_join_set` from `src/krunner.rs`: fold
the join results in order through the collector, which either extends the
buffer or aborts the whole collection with an error. -/
def collectJoinSetGo {σ τ : Type} (f : Except String σ → List τ → Except String (List τ)) :
    List (Except String σ) → List τ → Except String (List τ)
  | [], rs => Except.ok rs
  | s :: rest, rs =>
    match f s rs with
    | Except.ok rs2 => collectJoinSetGo f rest rs2
    | Except.error e => Except.error e

/-- Model of `collect_join_set` from `src/krunner.rs`. The `JoinSet` is
modelled as the list of the spawned tasks' join results in spawn order
(each of type `Except String σ`, the error side standing for a
`JoinError`); the closure `map` is modelled as returning the extended
buffer instead of mutating it. -/
def collect_join_set {σ τ : Type} (js : List (Except String σ))
    (f : Except String σ → List τ → Except String (List τ)) :
    Except String (List τ) :=
  collectJoinSetGo f js []

/-- Collector closure passed to `collect_join_set` by `search_in_doc_sets`
in `src/krunner.rs`: `buf.extend(r??)` propagates both a join error and
the task's own search error before extending the buffer. -/
def sidsCollector (r : Except String (Except String (List QueryEntry)))
    (buf : List QueryEntry) : Except String (List QueryEntry) :=
  match r with
  | Except.error e => Except.error e
  | Except.ok (Except.error e) => Except.error e
  | Except.ok (Except.ok w) => Except.ok (buf ++ w)

/-- Model of `search_in_doc_sets` from `src/krunner.rs`: spawn one task
per docset (each join succeeding, since the task bodies are pure), then
collect with the double-propagating collector. -/
def search_in_doc_sets (p : DocProvider) (doc_sets : List DocSet) (q : String) :
    Except String (List QueryEntry) :=
  collect_join_set (doc_sets.map (fun ds => Except.ok (doc_set_task p ds q))) sidsCollector

/-- Body of one per-provider task spawned by `query` in `src/krunner.rs`:
a failing or empty `search_doc_sets` contributes nothing; an empty term
synthesizes one completion-tier entry per docset keyword; a non-empty
term runs the docset fan-out, with any error swallowed to an empty
contribution. -/
def providerTask (p : DocProvider) (kw : String) (q : String) : List QueryEntry :=
  match p.search_doc_sets kw with
  | Except.error _ => []
  | Except.ok doc_sets =>
    if doc_sets.isEmpty then []
    else if q.isEmpty then
      (doc_sets.map (fun ds =>
        ds.keywords.map (fun keyword =>
          { data := encodeEntryData (EntryData.DocSet p.name ds.id)
            display_text := "Type \"" ++ keyword ++ " keyword\" to search " ++ ds.name
            icon_name := ds.icon
            match_type := MATCH_TYPE_COMPLETION
            relevance := 1
            properties := [] }))).flatten
    else
      match search_in_doc_sets p doc_sets q with
      | Except.ok v => v
      | Except.error _ => []

/-- Collector closure passed to `collect_join_set` by `query` in
`src/krunner.rs`: `buf.extend(rs?)` propagates only a join error. -/
def queryCollector (rs : Except String (List QueryEntry)) (buf : List QueryEntry) :
    Except String (List QueryEntry) :=
  match rs with
  | Except.error e => Except.error e
  | Except.ok v => Except.ok (buf ++ v)

/-- Membership of one character in Rust's `char::is_ascii_whitespace`
class: space, horizontal tab, newline, form feed, carriage return. -/
def isAsciiWhitespace (c : Char) : Bool :=
  c = ' ' || c = '\t' || c = '\n' || c.toNat = 12 || c = '\r'

/-- Membership of one character in Rust's `char::is_whitespace` class
(the Unicode White_Space property), used by `str::trim`. -/
def rustIsWhitespace (c : Char) : Bool :=
  c.toNat = 0x9 || c.toNat = 0xa || c.toNat = 0xb || c.toNat = 0xc || c.toNat = 0xd
    || c.toNat = 0x20 || c.toNat = 0x85 || c.toNat = 0xa0 || c.toNat = 0x1680
    || (0x2000 ≤ c.toNat && c.toNat ≤ 0x200a)
    || c.toNat = 0x2028 || c.toNat = 0x2029 || c.toNat = 0x202f || c.toNat = 0x205f
    || c.toNat = 0x3000

/-- Model of Rust `str::trim`: drop Unicode whitespace from both ends. -/
def rustTrim (s : String) : String :=
  String.mk (((s.toList.dropWhile rustIsWhitespace).reverse.dropWhile rustIsWhitespace).reverse)

/-- Word-splitting worker: accumulate the current word (reversed) and cut
at ASCII whitespace, producing no empty words. -/
def splitAsciiWsGo : List Char → List Char → List (List Char)
  | [], acc => if acc.isEmpty then [] else [acc.reverse]
  | c :: cs, acc =>
    if isAsciiWhitespace c then
      if acc.isEmpty then splitAsciiWsGo cs [] else acc.reverse :: splitAsciiWsGo cs []
    else splitAsciiWsGo cs (c :: acc)

/-- Model of Rust `str::split_ascii_whitespace`: the non-empty maximal
runs of non-whitespace characters, in order. -/
def splitAsciiWhitespace (s : String) : List String :=
  (splitAsciiWsGo s.toList []).map String.mk

/-- Query-line parsing from `query` in `src/krunner.rs` (lines 82-86):
trim, split on ASCII whitespace and take the first token as the keyword
and the second token, when present, as the term; with no first token the
query is answered without any backend work (modelled as `none`). -/
def parseQuery (raw : String) : Option (String × String) :=
  match splitAsciiWhitespace (rustTrim raw) with
  | [] => none
  | [kw] => some (kw, "")
  | kw :: q :: _ => some (kw, q)

/-- Model of the `Match` handler `query` from `src/krunner.rs`: parse the
raw query, bail out on a missing or empty keyword, then fan out one task
per registered provider and collect with the join-error-only collector. -/
def query (providers : List DocProvider) (raw : String) :
    Except String (List QueryEntry) :=
  match parseQuery raw with
  | none => Except.ok []
  | some (kw, q) =>
    if kw.length < 1 then Except.ok []
    else
      collect_join_set (providers.map (fun p => Except.ok (providerTask p kw q)))
        queryCollector

/-- Model of the action handler `run` from `src/krunner.rs`: deserialize
the reference (failure is a reported error); a DocSet-selection reference
is a no-op; an item-selection reference is routed to the provider whose
`name` matches exactly, if any, and is a silent no-op otherwise. -/
def run (providers : List DocProvider) (data : String) (_action_id : String) :
    Except String Unit :=
  match decodeEntryData data with
  | none => Except.error ("Parsing entry data")
  | some (EntryData.DocSet _ _) => Except.ok ()
  | some (EntryData.Entry provider doc_set_id url) =>
    match providers.find? (fun p => p.name == provider) with
    | some p => p.openItem doc_set_id url
    | none => Except.ok ()

/-- Entries a docset contributes to the fan-out when its search call
succeeds: the successful search result mapped to displayable entries. -/
def docSetOkEntries (p : DocProvider) (ds : DocSet) (q : String) : List QueryEntry :=
  ((p.search ds.id q).toOption.getD []).map (mkQueryEntry p ds)

/-- Error of the first docset (in spawn order) whose search call fails;
the empty string if none fails. -/
def firstSearchError (p : DocProvider) (doc_sets : List DocSet) (q : String) : String :=
  match doc_sets with
  | [] => ""
  | ds :: rest =>
    match p.search ds.id q with
    | Except.error e => e
    | Except.ok _ => firstSearchError p rest q

/-- Entry used by the concrete fixtures below. -/
def okEntry : SearchEntry :=
  { entry_type := EntryType.Class, title := "list", desc := "", url := "list.html", relevance := 80 }

/-- Fixture docset whose searches fail. -/
def failDocSet : DocSet :=
  { id := "bad", keywords := ["b"], name := "Bad docs", description := "", icon := "" }

/-- Fixture docset whose searches succeed. -/
def okDocSet : DocSet :=
  { id := "good", keywords := ["g"], name := "Good docs", description := "", icon := "" }

/-- Fixture backend with one failing and one succeeding docset. -/
def mixedProvider : DocProvider :=
  { name := "Dash"
    search_doc_sets := fun _ => Except.ok [failDocSet, okDocSet]
    search := fun doc_set_id _ =>
      if doc_set_id = "bad" then Except.error ("simulated io error") else Except.ok [okEntry]
    openItem := fun _ _ => Except.ok () }

/-- Fixture docset for the echoing backend. -/
def spyDocSet : DocSet :=
  { id := "python", keywords := ["py"], name := "Python 3", description := "Python 3 docs",
    icon := "" }

/-- Fixture backend whose search echoes the received term into the title
of its single result, exposing which term the engine passed in. -/
def spyProvider : DocProvider :=
  { name := "Spy"
    search_doc_sets := fun _ => Except.ok [spyDocSet]
    search := fun _ q =>
      Except.ok [{ entry_type := EntryType.Class, title := q, desc := "", url := "u",
                   relevance := 100 }]
    openItem := fun _ _ => Except.ok () }

/-- Fixture docset with an icon outside the range of the icon table. -/
def exDocSet : DocSet :=
  { id := "python", keywords := ["py"], name := "Python 3", description := "Python 3 docs",
    icon := "custom-icon" }

/-- Fixture backend that matches only the keyword "py". -/
def exProvider : DocProvider :=
  { name := "Dash"
    search_doc_sets := fun kw => if kw = "py" then Except.ok [exDocSet] else Except.ok []
    search := fun _ _ => Except.ok []
    openItem := fun _ _ => Except.ok () }

/-- Fixture backend whose docset discovery always fails. -/
def brokenProvider : DocProvider :=
  { name := "Broken"
    search_doc_sets := fun _ => Except.error ("simulated io error")
    search := fun _ _ => Except.ok [okEntry]
    openItem := fun _ _ => Except.ok () }

section Lemmas

deriving instance DecidableEq for Except

/-- Consuming a literal that is literally a prefix succeeds and leaves
the remainder. -/
theorem expectChars_append (t l : List Char) : expectChars t (t ++ l) = some l := by
  induction t with
  | nil => rfl
  | cons c cs ih => simp [expectChars, ih]

/-- Hex digits round-trip through the lowercase digit table. -/
theorem parseHexDigit_hexDigitChar (m : Nat) (h : m < 16) :
    parseHexDigit (hexDigitChar m) = some m := by
  interval_cases m <;> decide

/-- Reduction of the reader at a closing quote. -/
theorem psb_quote (l : List Char) : parseStringBody ('"' :: l) = some ([], l) := by
  conv_lhs => unfold parseStringBody
  simp

/-- Reduction of the reader at a two-character escape. -/
theorem psb_escape (e u : Char) (l : List Char) (h : unescapeChar e = some u) (h2 : e ≠ 'u') :
    parseStringBody ('\\' :: e :: l) = (parseStringBody l).map (fun pr => (u :: pr.1, pr.2)) := by
  conv_lhs => unfold parseStringBody
  simp [h, h2]

/-- Reduction of the reader at a backslash-u escape below the surrogate
range. -/
theorem psb_unicode (h1 h2 h3 h4 : Char) (a b c2 d : Nat) (l : List Char)
    (ha : parseHexDigit h1 = some a) (hb : parseHexDigit h2 = some b)
    (hc : parseHexDigit h3 = some c2) (hd : parseHexDigit h4 = some d)
    (hval : ((a * 16 + b) * 16 + c2) * 16 + d < 55296) :
    parseStringBody ('\\' :: 'u' :: h1 :: h2 :: h3 :: h4 :: l)
      = (parseStringBody l).map
          (fun pr => (Char.ofNat (((a * 16 + b) * 16 + c2) * 16 + d) :: pr.1, pr.2)) := by
  conv_lhs => unfold parseStringBody
  simp [ha, hb, hc, hd, Or.inl hval]

/-- Reduction of the reader at a verbatim character. -/
theorem psb_verbatim (c : Char) (l : List Char) (hq : c ≠ '"') (hb : c ≠ '\\')
    (hc : 32 ≤ c.toNat) :
    parseStringBody (c :: l) = (parseStringBody l).map (fun pr => (c :: pr.1, pr.2)) := by
  conv_lhs => unfold parseStringBody
  simp [hq, hb, Nat.not_lt.mpr hc]

/-- Reading an escaped string body recovers the original characters and
leaves exactly the input that follows the closing quote. -/
theorem parseStringBody_jsonEscape (s rest : List Char) :
    parseStringBody (jsonEscape s ++ '"' :: rest) = some (s, rest) := by
  induction s with
  | nil =>
    simp only [jsonEscape, List.map_nil, List.flatten_nil, List.nil_append]
    exact psb_quote rest
  | cons c cs ih =>
    have hesc : jsonEscape (c :: cs) = escapeChar c ++ jsonEscape cs := by
      simp [jsonEscape]
    rw [hesc, List.append_assoc]
    by_cases h1 : c = '"'
    · subst h1
      rw [show escapeChar '"' = ['\\', '"'] from by decide]
      simp only [List.cons_append, List.nil_append]
      rw [psb_escape '"' '"' _ (by decide) (by decide), ih]
      rfl
    by_cases h2 : c = '\\'
    · subst h2
      rw [show escapeChar '\\' = ['\\', '\\'] from by decide]
      simp only [List.cons_append, List.nil_append]
      rw [psb_escape '\\' '\\' _ (by decide) (by decide), ih]
      rfl
    by_cases h3 : c.toNat = 8
    · have hc : c = Char.ofNat 8 := by rw [← h3, Char.ofNat_toNat]
      rw [show escapeChar c = ['\\', 'b'] from by simp [escapeChar, h1, h2, h3]]
      simp only [List.cons_append, List.nil_append]
      rw [psb_escape 'b' (Char.ofNat 8) _ (by decide) (by decide), ih, hc]
      rfl
    by_cases h4 : c.toNat = 9
    · have hc : c = '\t' := by
        have h := congrArg Char.ofNat h4
        rwa [Char.ofNat_toNat] at h
      rw [show escapeChar c = ['\\', 't'] from by simp [escapeChar, h1, h2, h3, h4]]
      simp only [List.cons_append, List.nil_append]
      rw [psb_escape 't' '\t' _ (by decide) (by decide), ih, hc]
      rfl
    by_cases h5 : c.toNat = 10
    · have hc : c = '\n' := by
        have h := congrArg Char.ofNat h5
        rwa [Char.ofNat_toNat] at h
      rw [show escapeChar c = ['\\', 'n'] from by simp [escapeChar, h1, h2, h3, h4, h5]]
      simp only [List.cons_append, List.nil_append]
      rw [psb_escape 'n' '\n' _ (by decide) (by decide), ih, hc]
      rfl
    by_cases h6 : c.toNat = 12
    · have hc : c = Char.ofNat 12 := by rw [← h6, Char.ofNat_toNat]
      rw [show escapeChar c = ['\\', 'f'] from by simp [escapeChar, h1, h2, h3, h4, h5, h6]]
      simp only [List.cons_append, List.nil_append]
      rw [psb_escape 'f' (Char.ofNat 12) _ (by decide) (by decide), ih, hc]
      rfl
    by_cases h7 : c.toNat = 13
    · have hc : c = '\r' := by
        have h := congrArg Char.ofNat h7
        rwa [Char.ofNat_toNat] at h
      rw [show escapeChar c = ['\\', 'r'] from by simp [escapeChar, h1, h2, h3, h4, h5, h6, h7]]
      simp only [List.cons_append, List.nil_append]
      rw [psb_escape 'r' '\r' _ (by decide) (by decide), ih, hc]
      rfl
    by_cases h8 : c.toNat < 32
    · rw [show escapeChar c
          = ['\\', 'u', '0', '0', hexDigitChar (c.toNat / 16), hexDigitChar (c.toNat % 16)]
          from by simp [escapeChar, h1, h2, h3, h4, h5, h6, h7, h8]]
      simp only [List.cons_append, List.nil_append]
      rw [psb_unicode '0' '0' _ _ 0 0 (c.toNat / 16) (c.toNat % 16) _ (by decide) (by decide)
        (parseHexDigit_hexDigitChar _ (by omega)) (parseHexDigit_hexDigitChar _ (by omega))
        (by omega), ih]
      have hn : ((0 * 16 + 0) * 16 + c.toNat / 16) * 16 + c.toNat % 16 = c.toNat := by omega
      rw [hn, Char.ofNat_toNat]
      rfl
    · rw [show escapeChar c = [c] from by simp [escapeChar, h1, h2, h3, h4, h5, h6, h7, h8]]
      simp only [List.cons_append, List.nil_append]
      rw [psb_verbatim c _ h1 h2 (by omega), ih]
      rfl

/-- Consuming a literal against itself leaves nothing. -/
theorem expectChars_self (t : List Char) : expectChars t t = some [] := by
  have h := expectChars_append t []
  rwa [List.append_nil] at h

/-- Step of literal consumption at an agreeing head character. -/
theorem expectChars_cons_eq (t : Char) (ts cs : List Char) :
    expectChars (t :: ts) (t :: cs) = expectChars ts cs := by
  simp [expectChars]

/-- Consuming the empty literal leaves the input unchanged. -/
theorem expectChars_nil (l : List Char) : expectChars [] l = some l := rfl

/-- Reading the item tag, which needs no escaping. -/
theorem parseStringBody_tag_entry (rest : List Char) :
    parseStringBody (['E', 'n', 't', 'r', 'y'] ++ '"' :: rest)
      = some (['E', 'n', 't', 'r', 'y'], rest) := by
  have h := parseStringBody_jsonEscape ['E', 'n', 't', 'r', 'y'] rest
  rwa [show jsonEscape ['E', 'n', 't', 'r', 'y'] = ['E', 'n', 't', 'r', 'y'] from by decide] at h

/-- Reading the docset tag, which needs no escaping. -/
theorem parseStringBody_tag_docset (rest : List Char) :
    parseStringBody (['D', 'o', 'c', 'S', 'e', 't'] ++ '"' :: rest)
      = some (['D', 'o', 'c', 'S', 'e', 't'], rest) := by
  have h := parseStringBody_jsonEscape ['D', 'o', 'c', 'S', 'e', 't'] rest
  rwa [show jsonEscape ['D', 'o', 'c', 'S', 'e', 't'] = ['D', 'o', 'c', 'S', 'e', 't'] from by decide] at h

end Lemmas

/-- C7: serializing an item-selection reference and then deserializing
the resulting string yields a value equal to the original reference, for
every (provider, docset id, item id) string triple. -/
theorem c7_entry_reference_round_trip (provider doc_set_id url : String) :
    decodeEntryData (encodeEntryData (EntryData.Entry provider doc_set_id url))
      = some (EntryData.Entry provider doc_set_id url) := by
  have hmk : ∀ l : List Char, (String.mk l).toList = l := fun _ => rfl
  have hmk2 : ∀ s : String, String.mk s.data = s := fun _ => rfl
  unfold encodeEntryData decodeEntryData
  rw [hmk]
  rw [show ("\":\x7b\"provider\":\"" : String).toList
        = '"' :: (":\x7b\"provider\":\"" : String).toList from by decide,
      show ("\",\"doc_set_id\":\"" : String).toList
        = '"' :: (",\"doc_set_id\":\"" : String).toList from by decide,
      show ("\",\"url\":\"" : String).toList
        = '"' :: (",\"url\":\"" : String).toList from by decide,
      show ("\"\x7d\x7d" : String).toList
        = '"' :: ("\x7d\x7d" : String).toList from by decide]
  simp only [List.append_assoc, List.cons_append, List.nil_append]
  simp only [hmk]
  simp only [expectChars_cons_eq, expectChars_nil, Option.bind_eq_bind, Option.some_bind]
  simp only [parseStringBody_tag_entry, Option.some_bind]
  rw [if_neg (show ¬ (String.mk ['E', 'n', 't', 'r', 'y'] = "DocSet") from by decide)]
  simp only [if_true]
  simp only [expectChars_append, expectChars_cons_eq, expectChars_nil, Option.some_bind,
    parseStringBody_jsonEscape, expectChars_self, hmk2]

/-- Collection with the query-level collector never fails on pure task
results and concatenates the contributions in spawn order. -/
theorem collectJoinSetGo_query (ls : List (List QueryEntry)) :
    ∀ buf : List QueryEntry,
      collectJoinSetGo queryCollector (ls.map Except.ok) buf = Except.ok (buf ++ ls.flatten) := by
  induction ls with
  | nil => intro buf; simp [collectJoinSetGo]
  | cons l rest ih =>
    intro buf
    simp [collectJoinSetGo, queryCollector, ih]

/-- Collection with the double-propagating collector: it succeeds with
the concatenation exactly when every docset task succeeded, and otherwise
propagates the first failing docset's error. -/
theorem collectJoinSetGo_sids (p : DocProvider) (q : String) (doc_sets : List DocSet) :
    ∀ buf : List QueryEntry,
      collectJoinSetGo sidsCollector (doc_sets.map (fun ds => Except.ok (doc_set_task p ds q))) buf
        = if doc_sets.all (fun ds => (p.search ds.id q).isOk) then
            Except.ok (buf ++ (doc_sets.map (fun ds => docSetOkEntries p ds q)).flatten)
          else Except.error (firstSearchError p doc_sets q) := by
  induction doc_sets with
  | nil => intro buf; simp [collectJoinSetGo]
  | cons ds rest ih =>
    intro buf
    cases hs : p.search ds.id q with
    | error e =>
      have htask : doc_set_task p ds q = Except.error e := by
        simp [doc_set_task, hs, Except.map]
      simp [collectJoinSetGo, sidsCollector, htask, Except.isOk, Except.toBool,
        firstSearchError, hs]
    | ok entries =>
      have htask : doc_set_task p ds q = Except.ok (entries.map (mkQueryEntry p ds)) := by
        simp [doc_set_task, hs, Except.map]
      simp [collectJoinSetGo, sidsCollector, htask, Except.isOk, Except.toBool,
        firstSearchError, hs, ih, docSetOkEntries, Except.toOption, List.append_assoc]

/-- The dispatcher after a successful parse: empty keyword answers
immediately, otherwise the per-provider contributions are concatenated in
registration order. -/
theorem query_eq (providers : List DocProvider) (raw kw q : String)
    (h : parseQuery raw = some (kw, q)) :
    query providers raw = if kw.length < 1 then Except.ok []
      else Except.ok ((providers.map (fun p => providerTask p kw q)).flatten) := by
  unfold query
  rw [h]
  by_cases hl : kw.length < 1
  · simp [hl]
  · have hmap : providers.map (fun p => (Except.ok (providerTask p kw q) :
          Except String (List QueryEntry)))
        = (providers.map (fun p => providerTask p kw q)).map
            (@Except.ok String (List QueryEntry)) := by
      simp [List.map_map, Function.comp]
    simp only [if_neg hl]
    unfold collect_join_set
    rw [hmap, collectJoinSetGo_query]
    simp

/-- A backend whose docset discovery fails contributes nothing. -/
theorem providerTask_error (p : DocProvider) (kw q e : String)
    (h : p.search_doc_sets kw = Except.error e) : providerTask p kw q = [] := by
  unfold providerTask
  rw [h]

/-- A backend whose docset discovery returns no docset contributes
nothing. -/
theorem providerTask_empty (p : DocProvider) (kw q : String)
    (h : p.search_doc_sets kw = Except.ok []) : providerTask p kw q = [] := by
  unfold providerTask
  rw [h]
  simp

/-- With an empty term and a non-empty docset list, the backend task
synthesizes one completion entry per docset keyword. -/
theorem providerTask_completion (p : DocProvider) (kw : String) (doc_sets : List DocSet)
    (h : p.search_doc_sets kw = Except.ok doc_sets) (hne : doc_sets ≠ []) :
    providerTask p kw ("") = (doc_sets.map (fun ds =>
      ds.keywords.map (fun keyword =>
        ({ data := encodeEntryData (EntryData.DocSet p.name ds.id)
           display_text := "Type \"" ++ keyword ++ " keyword\" to search " ++ ds.name
           icon_name := ds.icon
           match_type := MATCH_TYPE_COMPLETION
           relevance := 1
           properties := [] } : QueryEntry)))).flatten := by
  have h1 : doc_sets.isEmpty = false := List.isEmpty_eq_false.mpr hne
  simp [providerTask, h, h1, show ("" : String).isEmpty = true from rfl]

/-- With a non-empty term and a non-empty docset list, the backend task
runs the docset fan-out and swallows its error to an empty
contribution. -/
theorem providerTask_term (p : DocProvider) (kw q : String) (doc_sets : List DocSet)
    (h : p.search_doc_sets kw = Except.ok doc_sets) (hne : doc_sets ≠ []) (hq : q ≠ "") :
    providerTask p kw q = (match search_in_doc_sets p doc_sets q with
      | Except.ok v => v
      | Except.error _ => []) := by
  have h1 : doc_sets.isEmpty = false := List.isEmpty_eq_false.mpr hne
  have h2 : ¬ q.isEmpty := by simp [String.isEmpty_iff, hq]
  simp [providerTask, h, h1, h2]

/-- A non-empty string has at least one character. -/
theorem length_ge_one_of_ne_empty (kw : String) (hkw : kw ≠ "") : ¬ kw.length < 1 := by
  have hd : kw.data ≠ [] := by
    intro hnil
    apply hkw
    cases kw
    simp only at hnil
    rw [hnil]
  have : 0 < kw.data.length := List.length_pos.mpr hd
  have he : kw.length = kw.data.length := by cases kw; rfl
  omega

/-- C1 counterexample: with one failing and one succeeding docset, the
fan-out returns the failing docset's error instead of the succeeding
docset's entries, even though the other docset's search succeeds with one
entry. -/
theorem c1_counterexample :
    search_in_doc_sets mixedProvider [failDocSet, okDocSet] "list"
      = Except.error ("simulated io error")
    ∧ mixedProvider.search okDocSet.id ("list") = Except.ok [okEntry] :=
  ⟨by decide, by decide⟩

/-- C1 (amended): a failing docset search fails the whole fan-out with
the first failing docset's error; the fan-out returns the concatenation
of the docsets' entries only when every docset's search succeeds. -/
theorem c1_docset_error_fails_fanout (p : DocProvider) (doc_sets : List DocSet) (q : String) :
    search_in_doc_sets p doc_sets q =
      if doc_sets.all (fun ds => (p.search ds.id q).isOk) then
        Except.ok ((doc_sets.map (fun ds => docSetOkEntries p ds q)).flatten)
      else Except.error (firstSearchError p doc_sets q) := by
  unfold search_in_doc_sets collect_join_set
  rw [collectJoinSetGo_sids]
  simp

/-- C2 counterexample: for the raw query "py list comp" the term passed
to the backend's search (echoed into the result title by the fixture) is
"list", not the full remainder "list comp". -/
theorem c2_counterexample :
    (query [spyProvider] "py list comp").map (fun es => es.map (fun e => e.display_text))
      = Except.ok ["list"]
    ∧ ("list" : String) ≠ "list comp" :=
  ⟨by decide, by decide⟩

/-- C2 (amended): for every raw query whose trimmed text splits into at
least two whitespace-separated tokens, the term passed to a backend's
search is exactly the second token; third and later tokens are
discarded. -/
theorem c2_term_is_second_token_only (raw kw t : String) (rest : List String)
    (p : DocProvider) (doc_sets : List DocSet)
    (hsplit : splitAsciiWhitespace (rustTrim raw) = kw :: t :: rest)
    (hkw : kw ≠ "") (ht : t ≠ "")
    (hds : p.search_doc_sets kw = Except.ok doc_sets) (hne : doc_sets ≠ []) :
    query [p] raw = Except.ok (match search_in_doc_sets p doc_sets t with
      | Except.ok v => v
      | Except.error _ => []) := by
  have hp : parseQuery raw = some (kw, t) := by
    unfold parseQuery
    rw [hsplit]
  rw [query_eq [p] raw kw t hp, if_neg (length_ge_one_of_ne_empty kw hkw)]
  simp only [List.map_cons, List.map_nil, List.flatten_cons, List.flatten_nil, List.append_nil]
  rw [providerTask_term p kw t doc_sets hds hne ht]

/-- C2 witness: the amended statement at the query "py list comp" with
the echoing fixture backend. -/
theorem c2_witness :
    query [spyProvider] "py list comp"
      = Except.ok (match search_in_doc_sets spyProvider [spyDocSet] "list" with
        | Except.ok v => v
        | Except.error _ => []) :=
  c2_term_is_second_token_only ("py list comp") ("py") ("list") ["comp"] spyProvider [spyDocSet]
    (by decide) (by decide) (by decide) rfl (by decide)

/-- C3: a backend whose docset discovery fails or returns no docset
contributes nothing, the query still succeeds, and the other backends'
contributions are exactly those of the registry without it. -/
theorem c3_failing_backend_isolated (ps1 ps2 : List DocProvider) (bad : DocProvider)
    (raw kw t : String) (hp : parseQuery raw = some (kw, t))
    (hbad : (bad.search_doc_sets kw).isOk = false ∨ bad.search_doc_sets kw = Except.ok []) :
    query (ps1 ++ bad :: ps2) raw = query (ps1 ++ ps2) raw
    ∧ (query (ps1 ++ bad :: ps2) raw).isOk = true := by
  have hbad2 : providerTask bad kw t = [] := by
    rcases hbad with hb | hb
    · cases hsd : bad.search_doc_sets kw with
      | ok v =>
        rw [hsd] at hb
        simp [Except.isOk, Except.toBool] at hb
      | error e => exact providerTask_error bad kw t e hsd
    · exact providerTask_empty bad kw t hb
  rw [query_eq _ raw kw t hp, query_eq _ raw kw t hp]
  by_cases hl : kw.length < 1
  · simp [hl, Except.isOk, Except.toBool]
  · simp [hl, List.map_append, List.flatten_append, hbad2, Except.isOk, Except.toBool]

/-- C3 witness: the fixture backend with failing docset discovery leaves
the working backend's results untouched on the query "py list". -/
theorem c3_witness :
    query ([exProvider] ++ brokenProvider :: []) "py list" = query ([exProvider] ++ []) "py list"
    ∧ (query ([exProvider] ++ brokenProvider :: []) "py list").isOk = true :=
  c3_failing_backend_isolated [exProvider] [] brokenProvider ("py list") ("py") ("list")
    (by decide) (Or.inl (by decide))

/-- C4: a raw query that is empty or all whitespace parses to nothing and
is answered with an empty list for every provider registry, so no backend
operation is invoked. -/
theorem c4_blank_query_returns_empty (providers : List DocProvider) (raw : String)
    (h : raw.toList.all rustIsWhitespace = true) :
    query providers raw = Except.ok [] ∧ parseQuery raw = none := by
  have htrim : rustTrim raw = "" := by
    unfold rustTrim
    have hd : raw.toList.dropWhile rustIsWhitespace = [] := by
      rw [List.dropWhile_eq_nil_iff]
      exact fun x hx => (List.all_eq_true.mp h) x hx
    rw [hd]
    rfl
  have hparse : parseQuery raw = none := by
    unfold parseQuery
    rw [htrim]
    rfl
  refine ⟨?_, hparse⟩
  unfold query
  rw [hparse]

/-- C4 witness: the blank query statement at a whitespace-only raw
string with a non-trivial registry. -/
theorem c4_witness :
    query [spyProvider] " \t " = Except.ok [] ∧ parseQuery (" \t ") = none :=
  c4_blank_query_returns_empty [spyProvider] " \t " (by decide)

/-- C5: with an empty term and a successful non-empty docset discovery,
the backend task yields exactly one completion-tier entry per
(docset, keyword) pair, with the claimed display text, docset icon,
completion tier, relevance 1 and a DocSet-selection data reference; the
result does not depend on the backend's item search operation. -/
theorem c5_empty_term_completion_entries (p : DocProvider) (kw : String)
    (doc_sets : List DocSet)
    (h : p.search_doc_sets kw = Except.ok doc_sets) (hne : doc_sets ≠ []) :
    providerTask p kw ("") = (doc_sets.map (fun ds =>
      ds.keywords.map (fun keyword =>
        ({ data := encodeEntryData (EntryData.DocSet p.name ds.id)
           display_text := "Type \"" ++ keyword ++ " keyword\" to search " ++ ds.name
           icon_name := ds.icon
           match_type := MATCH_TYPE_COMPLETION
           relevance := 1
           properties := [] } : QueryEntry)))).flatten
    ∧ ∀ s2 : String → String → Except String (List SearchEntry),
        providerTask { p with search := s2 } kw ("") = providerTask p kw ("") := by
  refine ⟨providerTask_completion p kw doc_sets h hne, fun s2 => ?_⟩
  rw [providerTask_completion p kw doc_sets h hne]
  exact providerTask_completion { p with search := s2 } kw doc_sets h hne

/-- C5 witness: the completion statement at the fixture backend and its
single docset with keyword "py". -/
theorem c5_witness :
    providerTask exProvider ("py") ("") = ([exDocSet].map (fun ds =>
      ds.keywords.map (fun keyword =>
        ({ data := encodeEntryData (EntryData.DocSet exProvider.name ds.id)
           display_text := "Type \"" ++ keyword ++ " keyword\" to search " ++ ds.name
           icon_name := ds.icon
           match_type := MATCH_TYPE_COMPLETION
           relevance := 1
           properties := [] } : QueryEntry)))).flatten :=
  (c5_empty_term_completion_entries exProvider ("py") [exDocSet] (by decide) (by decide)).1

/-- C6 counterexample: no item entry's relevance is ever below zero,
because the backend relevance is an unsigned integer; the claim's
"may be below 0.0" possibility is impossible. -/
theorem c6_counterexample :
    ¬ ∃ (p : DocProvider) (ds : DocSet) (e : SearchEntry),
        (mkQueryEntry p ds e).relevance < 0 := by
  rintro ⟨p, ds, e, hlt⟩
  have hge : (0 : ℚ) ≤ (e.relevance : ℚ) / 100 := by positivity
  simp only [mkQueryEntry] at hlt
  exact absurd hlt (not_lt.mpr hge)

/-- C6 (amended): every item entry's relevance is exactly the backend
relevance divided by 100, unclamped; it is always non-negative because
the backend relevance is unsigned, and it can exceed 1.0 when the
backend relevance exceeds 100. -/
theorem c6_relevance_linear_unclamped :
    (∀ (p : DocProvider) (ds : DocSet) (e : SearchEntry),
        (mkQueryEntry p ds e).relevance = (e.relevance : ℚ) / 100
          ∧ 0 ≤ (mkQueryEntry p ds e).relevance)
    ∧ ∃ (p : DocProvider) (ds : DocSet) (e : SearchEntry),
        100 < e.relevance ∧ 1 < (mkQueryEntry p ds e).relevance := by
  constructor
  · intro p ds e
    refine ⟨rfl, ?_⟩
    show (0 : ℚ) ≤ (e.relevance : ℚ) / 100
    positivity
  · refine ⟨spyProvider, spyDocSet,
      { entry_type := EntryType.Class, title := "t", desc := "", url := "u",
        relevance := 250 }, by norm_num, ?_⟩
    show (1 : ℚ) < ((250 : Nat) : ℚ) / 100
    norm_num

/-- C8: an item-selection reference whose provider name matches no
registered backend makes the action a successful silent no-op. -/
theorem c8_unknown_provider_noop (providers : List DocProvider) (data action_id p d u : String)
    (hdec : decodeEntryData data = some (EntryData.Entry p d u))
    (hno : ∀ q ∈ providers, q.name ≠ p) :
    run providers data action_id = Except.ok () := by
  have hfind : providers.find? (fun q => q.name == p) = none := by
    rw [List.find?_eq_none]
    intro q hq
    simp [hno q hq]
  simp [run, hdec, hfind]

/-- C8 witness: the no-op statement at a well-formed reference naming the
provider "Ghost", absent from a registry holding only "Dash". -/
theorem c8_witness :
    run [exProvider] (encodeEntryData (EntryData.Entry "Ghost" "python" "list.html")) "0"
      = Except.ok () :=
  c8_unknown_provider_noop [exProvider]
    (encodeEntryData (EntryData.Entry "Ghost" "python" "list.html")) "0"
    "Ghost" "python" "list.html" (by decide) (by decide)

/-- C9: the icon table is the claimed pure function of the entry kind:
Class, Method, Function, Enum and Constant map to their icons and every
other kind maps to the empty string. -/
theorem c9_icon_mapping :
    EntryType.Class.get_krunner_icon = "class-or-package"
    ∧ EntryType.Method.get_krunner_icon = "code-function"
    ∧ EntryType.Function.get_krunner_icon = "code-function"
    ∧ EntryType.Enum.get_krunner_icon = "enum"
    ∧ EntryType.Constant.get_krunner_icon = "code-variable"
    ∧ EntryType.Option.get_krunner_icon = ""
    ∧ EntryType.Guide.get_krunner_icon = ""
    ∧ EntryType.Module.get_krunner_icon = ""
    ∧ ∀ label : String, (EntryType.Other label).get_krunner_icon = "" :=
  ⟨rfl, rfl, rfl, rfl, rfl, rfl, rfl, rfl, fun _ => rfl⟩

/-- C10: the icon of every completion-tier entry is the originating
docset's own icon attribute verbatim, keyword by keyword, not a value of
the entry-kind icon table. -/
theorem c10_completion_icon_is_docset_icon (p : DocProvider) (kw : String)
    (doc_sets : List DocSet)
    (h : p.search_doc_sets kw = Except.ok doc_sets) (hne : doc_sets ≠ []) :
    (providerTask p kw ("")).map (fun e => e.icon_name)
      = (doc_sets.map (fun ds => ds.keywords.map (fun _ => ds.icon))).flatten := by
  rw [providerTask_completion p kw doc_sets h hne]
  simp [List.map_flatten, List.map_map, Function.comp_def]

/-- C10 witness: the docset-icon statement at the fixture docset whose
icon "custom-icon" is not in the range of the entry-kind icon table. -/
theorem c10_witness :
    (providerTask exProvider ("py") ("")).map (fun e => e.icon_name)
      = ([exDocSet].map (fun ds => ds.keywords.map (fun _ => ds.icon))).flatten :=
  c10_completion_icon_is_docset_icon exProvider ("py") [exDocSet] (by decide) (by decide)

end Dokrunner
